import Mathlib

/-!
Verification development for the `chronolog` logging library
(`src/chronolog/logger.py`).

The embedding models:
- `PrefixedLogger` — a façade over a named logging channel holding a mutable
  message tag and a private map from beacon timer keys to start timestamps
  (`_start_times`).  Wall-clock reads (`time.time()`) are passed in explicitly
  as rational timestamps; every leveled emission operation returns the record
  it forwards to the underlying channel.
- `setup_logging` / `get_prefixed_logger` — the process-wide one-shot
  initializer and the convenience factory, modelled as explicit state passing
  over a `LoggingState` (the `_logging_configured` flag plus the root
  channel's handler list, level and format).  The outcomes of the fallible
  sink constructors (cloud client, rotating file handler) are environment
  inputs, since the sources of those failures lie outside the repository.

All definitions are executable; theorems follow the claims about the source.
-/

/-- Severity levels of the underlying logging channel. -/
inductive Level
  | debug
  | info
  | warning
  | error
  | critical
  deriving DecidableEq, Repr

/-- One record forwarded to the underlying channel: its severity, the already
decorated text, the positional formatting arguments passed through unchanged,
and whether the active exception context is attached (`Logger.exception`,
which logs at ERROR severity with the traceback). -/
structure LogRecord where
  level : Level
  text : String
  args : List String
  withTraceback : Bool
  deriving DecidableEq, Repr

/-- Embeds Python's `prefix or "no-prefix"`: `None` and the empty string are
falsy, so both fall back to the sentinel. -/
def fallbackPfx (p : Option String) : String :=
  match p with
  | none => "no-prefix"
  | some s => if s = "" then "no-prefix" else s

/-- The `PrefixedLogger` instance state: the bound channel name
(`self.logger`), the current message tag (`self._prefix`, called `pfx` here),
and the beacon timer map (`self._start_times`), modelled as a function from
keys to optional start timestamps. -/
structure PrefixedLogger where
  loggerName : String
  pfx : String
  startTimes : String → Option ℚ

/-- The instance fields set by `PrefixedLogger.__init__`: bind the named
channel, apply the sentinel fallback to the tag, start with an empty timer
map. -/
def PrefixedLogger.mkNew (loggerName : String) (p : Option String) : PrefixedLogger :=
  ⟨loggerName, fallbackPfx p, fun _ => none⟩

/-- `PrefixedLogger._format_message`: decorate the message with the tag. -/
def PrefixedLogger.formatMessage (st : PrefixedLogger) (message : String) : String :=
  "[" ++ st.pfx ++ "] " ++ message

/-- `PrefixedLogger.update_prefix`: replace the tag, with the same falsy
fallback as the constructor.  No other field is touched. -/
def PrefixedLogger.updatePfx (st : PrefixedLogger) (p : Option String) : PrefixedLogger :=
  { st with pfx := fallbackPfx p }

/-- `PrefixedLogger.debug`: forward the decorated text at DEBUG severity. -/
def PrefixedLogger.debug (st : PrefixedLogger) (message : String) (args : List String) :
    LogRecord :=
  ⟨Level.debug, st.formatMessage message, args, false⟩

/-- `PrefixedLogger.info`: forward the decorated text at INFO severity. -/
def PrefixedLogger.info (st : PrefixedLogger) (message : String) (args : List String) :
    LogRecord :=
  ⟨Level.info, st.formatMessage message, args, false⟩

/-- `PrefixedLogger.warning`: forward the decorated text at WARNING severity. -/
def PrefixedLogger.warning (st : PrefixedLogger) (message : String) (args : List String) :
    LogRecord :=
  ⟨Level.warning, st.formatMessage message, args, false⟩

/-- `PrefixedLogger.error`: forward the decorated text at ERROR severity. -/
def PrefixedLogger.error (st : PrefixedLogger) (message : String) (args : List String) :
    LogRecord :=
  ⟨Level.error, st.formatMessage message, args, false⟩

/-- `PrefixedLogger.critical`: forward the decorated text at CRITICAL
severity. -/
def PrefixedLogger.critical (st : PrefixedLogger) (message : String) (args : List String) :
    LogRecord :=
  ⟨Level.critical, st.formatMessage message, args, false⟩

/-- `PrefixedLogger.exception`: forward the decorated text at ERROR severity
with the active exception context attached. -/
def PrefixedLogger.exception (st : PrefixedLogger) (message : String) (args : List String) :
    LogRecord :=
  ⟨Level.error, st.formatMessage message, args, true⟩

/-- Round a rational to the nearest integer, halves up: `⌊q + 1/2⌋`, computed
on the numerator and denominator so the kernel can evaluate it. -/
def roundHalfUp (q : ℚ) : Int :=
  Int.fdiv (2 * q.num + q.den) (2 * q.den)

/-- Embeds Python's fixed-point rendering `f"{x:.2f}"` on the elapsed time:
round to centiseconds and print with exactly two digits after the point. -/
def formatFixed2 (q : ℚ) : String :=
  let c : Int := roundHalfUp (q * 100)
  let sign : String := if c < 0 then "-" else ""
  let n : Nat := c.natAbs
  let frac : Nat := n % 100
  sign ++ toString (n / 100) ++ "." ++ (if frac < 10 then "0" else "") ++ toString frac

/-- `PrefixedLogger.log_start`: store the current timestamp under `key`
(overwriting any previous one), then emit the START beacon via `info`. -/
def PrefixedLogger.log_start (st : PrefixedLogger) (now : ℚ) (key message : String)
    (args : List String) : PrefixedLogger × LogRecord :=
  let st' : PrefixedLogger :=
    { st with startTimes := fun k => if k = key then some now else st.startTimes k }
  (st', st'.info ("(BEACON - [" ++ key ++ "] - START) " ++ message) args)

/-- `PrefixedLogger.log_end`: pop `key` from the timer map
(`self._start_times.pop(key, None)` leaves the map unchanged when the key is
absent).  When the key was absent, emit a WARNING and then the END beacon with
the literal elapsed token `N/A` (no trailing space in that branch); when
present, emit one END beacon with the elapsed time rendered to two decimal
places, followed by a trailing space after the message. -/
def PrefixedLogger.log_end (st : PrefixedLogger) (now : ℚ) (key message : String)
    (args : List String) : PrefixedLogger × List LogRecord :=
  match st.startTimes key with
  | none =>
      (st,
        [st.warning ("log_end called for key '" ++ key ++
            "' without a corresponding log_start.") [],
          st.info ("(BEACON - [" ++ key ++ "] - END (Elapsed time N/A s)) " ++ message)
            args])
  | some startTime =>
      let st' : PrefixedLogger :=
        { st with startTimes := fun k => if k = key then none else st.startTimes k }
      let elapsedTime : ℚ := now - startTime
      (st',
        [st'.info ("(BEACON - [" ++ key ++ "] - END (Elapsed time " ++
            formatFixed2 elapsedTime ++ " s)) " ++ message ++ " ") args])

/-- A sink on the root channel: the console stream handler, the cloud handler
(with its resolved cloud logger name), or the rotating file handler with its
path, `maxBytes` and `backupCount`. -/
inductive Handler
  | stream
  | cloud (name : String)
  | rotatingFile (path : String) (maxBytes : Nat) (backupCount : Nat)
  deriving DecidableEq, Repr

/-- The process-wide logging state: the module flag `_logging_configured`,
and the root channel configuration installed by `logging.basicConfig`
(handler list, minimum level, format string). -/
structure LoggingState where
  configured : Bool
  rootHandlers : List Handler
  rootLevel : Option Level
  rootFormat : Option String
  deriving DecidableEq, Repr

/-- A process that has never run `setup_logging`: flag down, no root
configuration installed. -/
def freshState : LoggingState :=
  ⟨false, [], none, none⟩

/-- Environment facts outside the repository that `setup_logging` branches
on: whether the Google Cloud Logging import succeeded
(`_GOOGLE_CLOUD_LOGGING_AVAILABLE`), whether `google.cloud.logging.Client()`
and the cloud handler construct without raising, whether
`RotatingFileHandler(...)` constructs without raising, and the value of
`LOGGING_FILE_PATH` (the environment variable, or its literal default
"logs.txt"). -/
structure SetupEnv where
  gcloudAvailable : Bool
  gcloudClientOk : Bool
  fileHandlerOk : Bool
  loggingFilePath : String
  deriving DecidableEq, Repr

/-- Embeds Python's `cloud_logger_name or logger_name` (both `None` and the
empty string fall through to `logger_name`). -/
def resolveCloudName (cloudLoggerName : Option String) (loggerName : String) : String :=
  match cloudLoggerName with
  | none => loggerName
  | some s => if s = "" then loggerName else s

/-- The console warning printed when the cloud client fails to construct.
The Python message interpolates the exception text; the model keeps the fixed
part. -/
def cloudInitWarningMsg : String :=
  "Warning: Could not initialize Google Cloud Logging. Functionality disabled."

/-- The console warning printed when cloud logging is requested but the
library is unavailable. -/
def cloudUnavailableWarningMsg : String :=
  "Warning: Google Cloud Logging requested but library is not available or failed to import."

/-- The console warning printed when the rotating file handler fails to
construct.  The Python message interpolates the exception text; the model
keeps the fixed part. -/
def fileInitWarningMsg : String :=
  "Warning: Could not initialize file logging."

/-- What one call to `setup_logging` produces: the new process-wide state,
the name of the returned logger channel, and the warnings printed to the
console during the call. -/
structure SetupResult where
  state : LoggingState
  returnedLogger : String
  warnings : List String
  deriving DecidableEq, Repr

/-- `setup_logging(logger_name, cloud_logger_name, enable_gcloud_logging)`.
If `_logging_configured` is already set, return the named channel untouched.
Otherwise assemble the handler list — always a stream handler; the cloud
handler when requested, available and constructible (warning otherwise); the
rotating file handler at `LOGGING_FILE_PATH` with `maxBytes=1024*1024*100`
and `backupCount=5` when constructible (warning otherwise) — apply it via
`basicConfig` at INFO level with the fixed format, set the flag, and return
the named channel.  Every fallible constructor is wrapped in `try/except`,
so the embedded function is total. -/
def setup_logging (gs : LoggingState) (env : SetupEnv) (loggerName : String)
    (cloudLoggerName : Option String) (enableGcloudLogging : Bool) : SetupResult :=
  if gs.configured then
    ⟨gs, loggerName, []⟩
  else
    let handlers0 : List Handler := [Handler.stream]
    let step1 : List Handler × List String :=
      if enableGcloudLogging && env.gcloudAvailable then
        if env.gcloudClientOk then
          (handlers0 ++ [Handler.cloud (resolveCloudName cloudLoggerName loggerName)], [])
        else
          (handlers0, [cloudInitWarningMsg])
      else if enableGcloudLogging && !env.gcloudAvailable then
        (handlers0, [cloudUnavailableWarningMsg])
      else
        (handlers0, [])
    let step2 : List Handler × List String :=
      if env.fileHandlerOk then
        (step1.1 ++ [Handler.rotatingFile env.loggingFilePath (1024 * 1024 * 100) 5],
          step1.2)
      else
        (step1.1, step1.2 ++ [fileInitWarningMsg])
    ⟨⟨true, step2.1, some Level.info, some "%(asctime)s - %(levelname)s - %(message)s"⟩,
      loggerName, step2.2⟩

/-- The defaults of `setup_logging`'s signature:
`logger_name="cloud_bear_logger"`, `cloud_logger_name=None`,
`enable_gcloud_logging=True`. -/
def setup_logging_defaults (gs : LoggingState) (env : SetupEnv) : SetupResult :=
  setup_logging gs env "cloud_bear_logger" none true

/-- `PrefixedLogger.__init__` as a step on the process-wide state: it only
calls `logging.getLogger(logger_name)` and sets the instance fields, so the
global logging configuration is passed through untouched. -/
def PrefixedLogger.construct (gs : LoggingState) (loggerName : String)
    (p : Option String) : LoggingState × PrefixedLogger :=
  (gs, PrefixedLogger.mkNew loggerName p)

/-- `get_prefixed_logger(logger_name, prefix, cloud_logger_name,
enable_gcloud_logging)`: run `setup_logging` with the given parameters, then
construct the façade. -/
def get_prefixed_logger (gs : LoggingState) (env : SetupEnv) (loggerName : String)
    (p : Option String) (cloudLoggerName : Option String) (enableGcloudLogging : Bool) :
    LoggingState × PrefixedLogger :=
  let r := setup_logging gs env loggerName cloudLoggerName enableGcloudLogging
  (r.state, PrefixedLogger.mkNew loggerName p)

/-- `get_prefixed_logger` at the defaults of its signature beyond the two
leading parameters: `cloud_logger_name=None`, `enable_gcloud_logging=False`. -/
def get_prefixed_logger_defaults (gs : LoggingState) (env : SetupEnv)
    (loggerName : String) (p : Option String) : LoggingState × PrefixedLogger :=
  get_prefixed_logger gs env loggerName p none false

example : formatFixed2 ((2005 : ℚ) / 2 - 1000) = "2.50" := by
  have h : ((2005 : ℚ) / 2 - 1000) * 100 = 250 := by norm_num
  rw [formatFixed2, h]
  norm_num [roundHalfUp]
  decide

example : formatFixed2 (0 : ℚ) = "0.00" := by
  have h : ((0 : ℚ)) * 100 = 0 := by norm_num
  rw [formatFixed2, h]
  norm_num [roundHalfUp]
  decide

/-- Unfolding lemma for `log_start`: the stored timestamp and the emitted
record, spelled out. -/
theorem log_start_eq (st : PrefixedLogger) (now : ℚ) (key message : String)
    (args : List String) :
    st.log_start now key message args =
      ({ st with startTimes := fun k => if k = key then some now else st.startTimes k },
        ⟨Level.info,
          "[" ++ st.pfx ++ "] " ++ ("(BEACON - [" ++ key ++ "] - START) " ++ message),
          args, false⟩) :=
  rfl

/-- Unfolding lemma for `log_end` when the key carries a start timestamp. -/
theorem log_end_eq_of_present (st : PrefixedLogger) (now t : ℚ) (key message : String)
    (args : List String) (h : st.startTimes key = some t) :
    st.log_end now key message args =
      ({ st with startTimes := fun k => if k = key then none else st.startTimes k },
        [⟨Level.info,
          "[" ++ st.pfx ++ "] " ++ ("(BEACON - [" ++ key ++ "] - END (Elapsed time " ++
            formatFixed2 (now - t) ++ " s)) " ++ message ++ " "),
          args, false⟩]) := by
  unfold PrefixedLogger.log_end
  rw [h]
  rfl

/-- Unfolding lemma for `log_end` when the key carries no start timestamp. -/
theorem log_end_eq_of_absent (st : PrefixedLogger) (now : ℚ) (key message : String)
    (args : List String) (h : st.startTimes key = none) :
    st.log_end now key message args =
      (st,
        [⟨Level.warning,
          "[" ++ st.pfx ++ "] " ++ ("log_end called for key '" ++ key ++
            "' without a corresponding log_start."),
          [], false⟩,
        ⟨Level.info,
          "[" ++ st.pfx ++ "] " ++ ("(BEACON - [" ++ key ++
            "] - END (Elapsed time N/A s)) " ++ message),
          args, false⟩]) := by
  unfold PrefixedLogger.log_end
  rw [h]
  rfl

/-- Claim C1: each leveled emission operation forwards to the underlying
channel at the corresponding severity the text `"[P] M"` where `P` is the
instance's current tag, with the positional formatting arguments passed
through unchanged; `exception` forwards at ERROR severity with the active
exception context attached; and the constructor falls back to the sentinel
`"no-prefix"` when given an unset or empty tag. -/
theorem prefixed_emission_contract (st : PrefixedLogger) (m : String)
    (args : List String) :
    st.debug m args = ⟨Level.debug, "[" ++ st.pfx ++ "] " ++ m, args, false⟩
  ∧ st.info m args = ⟨Level.info, "[" ++ st.pfx ++ "] " ++ m, args, false⟩
  ∧ st.warning m args = ⟨Level.warning, "[" ++ st.pfx ++ "] " ++ m, args, false⟩
  ∧ st.error m args = ⟨Level.error, "[" ++ st.pfx ++ "] " ++ m, args, false⟩
  ∧ st.critical m args = ⟨Level.critical, "[" ++ st.pfx ++ "] " ++ m, args, false⟩
  ∧ st.exception m args = ⟨Level.error, "[" ++ st.pfx ++ "] " ++ m, args, true⟩
  ∧ (∀ name : String, (PrefixedLogger.mkNew name none).pfx = "no-prefix")
  ∧ (∀ name : String, (PrefixedLogger.mkNew name (some "")).pfx = "no-prefix") := by
  refine ⟨rfl, rfl, rfl, rfl, rfl, rfl, fun _ => rfl, fun _ => ?_⟩
  simp [PrefixedLogger.mkNew, fallbackPfx]

/-- Claim C2: when `key` carries a start timestamp `t`, `log_end` at time
`now` removes `key` from the timer map and emits exactly one INFO record
whose text is the tag decoration followed by
`"(BEACON - [<key>] - END (Elapsed time <now - t, 2 decimal places> s)) <message> "`,
with the trailing space after the message. -/
theorem log_end_present_contract (st : PrefixedLogger) (now t : ℚ) (key m : String)
    (args : List String) (h : st.startTimes key = some t) :
    ((st.log_end now key m args).1.startTimes key = none)
  ∧ (st.log_end now key m args).2 =
      [⟨Level.info,
        "[" ++ st.pfx ++ "] " ++ ("(BEACON - [" ++ key ++ "] - END (Elapsed time " ++
          formatFixed2 (now - t) ++ " s)) " ++ m ++ " "),
        args, false⟩] := by
  rw [log_end_eq_of_present st now t key m args h]
  exact ⟨by simp, rfl⟩

/-- Witness for C2 at a concrete run: start at time 1000, end at 1002. -/
def sampleStarted : PrefixedLogger :=
  ((PrefixedLogger.mkNew "test_logger" (some "beacon-test")).log_start 1000 "task-1"
    "Starting the task." []).1

theorem log_end_present_contract_witness :
    ((sampleStarted.log_end 1002 "task-1" "Finished the task." []).1.startTimes "task-1"
      = none)
  ∧ (sampleStarted.log_end 1002 "task-1" "Finished the task." []).2 =
      [⟨Level.info,
        "[" ++ sampleStarted.pfx ++ "] " ++ ("(BEACON - [task-1] - END (Elapsed time " ++
          formatFixed2 ((1002 : ℚ) - 1000) ++ " s)) " ++ "Finished the task." ++ " "),
        [], false⟩] :=
  log_end_present_contract sampleStarted 1002 1000 "task-1" "Finished the task." [] rfl

/-- Claim C3: when `key` carries no start timestamp, `log_end` raises no
error and emits exactly two records in order: a WARNING naming the key,
then the INFO END beacon with the elapsed time rendered as the literal token
`N/A`; the instance state is left untouched. -/
theorem log_end_absent_contract (st : PrefixedLogger) (now : ℚ) (key m : String)
    (args : List String) (h : st.startTimes key = none) :
    ((st.log_end now key m args).1 = st)
  ∧ (st.log_end now key m args).2 =
      [⟨Level.warning,
        "[" ++ st.pfx ++ "] " ++ ("log_end called for key '" ++ key ++
          "' without a corresponding log_start."),
        [], false⟩,
      ⟨Level.info,
        "[" ++ st.pfx ++ "] " ++ ("(BEACON - [" ++ key ++
          "] - END (Elapsed time N/A s)) " ++ m),
        args, false⟩] := by
  rw [log_end_eq_of_absent st now key m args h]
  exact ⟨rfl, rfl⟩

theorem log_end_absent_contract_witness :
    (((PrefixedLogger.mkNew "test_logger" (some "warning-test")).log_end 5 "dangling-task"
        "This task never started." []).1 =
      PrefixedLogger.mkNew "test_logger" (some "warning-test")) :=
  (log_end_absent_contract (PrefixedLogger.mkNew "test_logger" (some "warning-test")) 5
    "dangling-task" "This task never started." [] rfl).1
example :
    ((PrefixedLogger.mkNew "t" (some "beacon-test")).log_start 1000 "task-1" "go" []).2.text =
      "[beacon-test] (BEACON - [task-1] - START) go" := by decide

/-- Claim C5: two `log_start` calls for the same key with no intervening
`log_end` both emit a single INFO record (never a warning), the second start
timestamp overwrites the first, and a following `log_end` computes the
elapsed time against the second start timestamp. -/
theorem log_start_last_start_wins (st : PrefixedLogger) (t1 t2 t3 : ℚ)
    (k m1 m2 m3 : String) (a1 a2 a3 : List String) :
    ((st.log_start t1 k m1 a1).2.level = Level.info)
  ∧ (((st.log_start t1 k m1 a1).1.log_start t2 k m2 a2).2.level = Level.info)
  ∧ (((st.log_start t1 k m1 a1).1.log_start t2 k m2 a2).1.startTimes k = some t2)
  ∧ ((((st.log_start t1 k m1 a1).1.log_start t2 k m2 a2).1.log_end t3 k m3 a3).2 =
      [⟨Level.info,
        "[" ++ st.pfx ++ "] " ++ ("(BEACON - [" ++ k ++ "] - END (Elapsed time " ++
          formatFixed2 (t3 - t2) ++ " s)) " ++ m3 ++ " "),
        a3, false⟩]) := by
  have hmem :
      ((st.log_start t1 k m1 a1).1.log_start t2 k m2 a2).1.startTimes k = some t2 := by
    simp [PrefixedLogger.log_start]
  refine ⟨rfl, rfl, hmem, ?_⟩
  rw [(log_end_eq_of_present _ t3 t2 k m3 a3 hmem)]
  rfl

/-- Claim C6: `update_prefix` replaces only the active tag (falling back to
the sentinel `"no-prefix"` on an unset or empty argument); the timer map and
the bound channel name are unchanged, emissions after the call use the new
tag, and a record emitted before the call is built from the old tag only. -/
theorem updatePfx_frame (st : PrefixedLogger) (p : Option String) (m1 m2 : String)
    (a1 a2 : List String) :
    ((st.updatePfx p).startTimes = st.startTimes)
  ∧ ((st.updatePfx p).loggerName = st.loggerName)
  ∧ ((p = none ∨ p = some "") → (st.updatePfx p).pfx = "no-prefix")
  ∧ (∀ s : String, s ≠ "" → (st.updatePfx (some s)).pfx = s)
  ∧ ((st.updatePfx p).info m2 a2 =
      ⟨Level.info, "[" ++ (st.updatePfx p).pfx ++ "] " ++ m2, a2, false⟩)
  ∧ (st.info m1 a1 = ⟨Level.info, "[" ++ st.pfx ++ "] " ++ m1, a1, false⟩) := by
  refine ⟨rfl, rfl, ?_, ?_, rfl, rfl⟩
  · rintro (rfl | rfl) <;> simp [PrefixedLogger.updatePfx, fallbackPfx]
  · intro s hs
    simp [PrefixedLogger.updatePfx, fallbackPfx, hs]

theorem updatePfx_frame_witness :
    (((PrefixedLogger.mkNew "app" (some "initial")).updatePfx none).pfx = "no-prefix")
  ∧ (((PrefixedLogger.mkNew "app" (some "initial")).updatePfx (some "new-tag")).pfx
      = "new-tag") :=
  ⟨(updatePfx_frame (PrefixedLogger.mkNew "app" (some "initial")) none "" "" [] []).2.2.1
      (Or.inl rfl),
    (updatePfx_frame (PrefixedLogger.mkNew "app" (some "initial")) (some "new-tag") "" ""
      [] []).2.2.2.1 "new-tag" (by decide)⟩

/-- Claim C10: after any `log_end` for key `k` returns, `k` is absent from
the timer map, so a second consecutive `log_end` for `k` with no intervening
`log_start` takes the missing-key path: a WARNING followed by the END beacon
with the `N/A` elapsed token. -/
theorem log_end_clears_key (st : PrefixedLogger) (now now2 : ℚ) (k m m2 : String)
    (args args2 : List String) :
    ((st.log_end now k m args).1.startTimes k = none)
  ∧ (((st.log_end now k m args).1.log_end now2 k m2 args2).2 =
      [⟨Level.warning,
        "[" ++ st.pfx ++ "] " ++ ("log_end called for key '" ++ k ++
          "' without a corresponding log_start."),
        [], false⟩,
      ⟨Level.info,
        "[" ++ st.pfx ++ "] " ++ ("(BEACON - [" ++ k ++
          "] - END (Elapsed time N/A s)) " ++ m2),
        args2, false⟩]) := by
  rcases hcase : st.startTimes k with _ | t
  · rw [log_end_eq_of_absent st now k m args hcase]
    exact ⟨hcase, by rw [log_end_eq_of_absent st now2 k m2 args2 hcase]⟩
  · rw [log_end_eq_of_present st now t k m args hcase]
    have h2 :
        ({ st with startTimes := fun k' => if k' = k then none else st.startTimes k' }
          : PrefixedLogger).startTimes k = none := by
      simp
    exact ⟨h2, by rw [log_end_eq_of_absent _ now2 k m2 args2 h2]⟩

/-- A process state in which `setup_logging` has already completed once. -/
def configuredSample : LoggingState :=
  ⟨true, [Handler.stream, Handler.rotatingFile "logs.txt" (1024 * 1024 * 100) 5],
    some Level.info, some "%(asctime)s - %(levelname)s - %(message)s"⟩

/-- An environment in which every optional sink constructor succeeds. -/
def envAllOk : SetupEnv :=
  ⟨true, true, true, "logs.txt"⟩

/-- An environment in which the cloud client and the file handler both fail
to construct. -/
def envAllFail : SetupEnv :=
  ⟨true, false, false, "logs.txt"⟩

/-- Claim C4: once the process-wide flag is true, every later call to
`setup_logging` returns the channel for the requested name with the state —
sinks, level, format — completely untouched and nothing printed, whatever
its arguments; and a configuring call installs the flag together with the
assembled sinks (console sink included). -/
theorem setup_logging_idempotent (gs : LoggingState) (env : SetupEnv) (name : String)
    (cn : Option String) (b : Bool) :
    (gs.configured = true → setup_logging gs env name cn b = ⟨gs, name, []⟩)
  ∧ (gs.configured = false →
      ((setup_logging gs env name cn b).state.configured = true
        ∧ Handler.stream ∈ (setup_logging gs env name cn b).state.rootHandlers)) := by
  constructor
  · intro h
    simp [setup_logging, h]
  · intro h
    rcases env with ⟨ga, gc, fo, path⟩
    cases b <;> cases ga <;> cases gc <;> cases fo <;> simp [setup_logging, h]

theorem setup_logging_idempotent_witness :
    (setup_logging configuredSample envAllOk "other_logger" (some "cloud") false =
      ⟨configuredSample, "other_logger", []⟩)
  ∧ (setup_logging freshState envAllOk "cloud_bear_logger" none true).state.configured
      = true :=
  ⟨(setup_logging_idempotent configuredSample envAllOk "other_logger" (some "cloud")
      false).1 rfl,
    ((setup_logging_idempotent freshState envAllOk "cloud_bear_logger" none true).2
      rfl).1⟩

/-- Claim C9: on a configuring call, whatever the outcomes of the optional
sink constructors, `setup_logging` returns normally (the embedded function is
total): the console sink is always added; a failing cloud or file sink is
omitted with its warning printed; the sinks that did construct are still
applied. -/
theorem setup_logging_never_fails (gs : LoggingState) (env : SetupEnv) (name : String)
    (cn : Option String) (b : Bool) (hg : gs.configured = false) :
    Handler.stream ∈ (setup_logging gs env name cn b).state.rootHandlers
  ∧ ((b = true ∧ env.gcloudAvailable = true ∧ env.gcloudClientOk = false) →
      ((∀ n, Handler.cloud n ∉ (setup_logging gs env name cn b).state.rootHandlers)
        ∧ cloudInitWarningMsg ∈ (setup_logging gs env name cn b).warnings))
  ∧ (env.fileHandlerOk = false →
      ((∀ q mb bc,
          Handler.rotatingFile q mb bc ∉ (setup_logging gs env name cn b).state.rootHandlers)
        ∧ fileInitWarningMsg ∈ (setup_logging gs env name cn b).warnings))
  ∧ (env.fileHandlerOk = true →
      Handler.rotatingFile env.loggingFilePath (1024 * 1024 * 100) 5 ∈
        (setup_logging gs env name cn b).state.rootHandlers)
  ∧ ((b = true ∧ env.gcloudAvailable = true ∧ env.gcloudClientOk = true) →
      Handler.cloud (resolveCloudName cn name) ∈
        (setup_logging gs env name cn b).state.rootHandlers) := by
  rcases env with ⟨ga, gc, fo, path⟩
  cases b <;> cases ga <;> cases gc <;> cases fo <;>
    simp [setup_logging, hg]

theorem setup_logging_never_fails_witness :
    Handler.stream ∈ (setup_logging freshState envAllFail "app" none true).state.rootHandlers
  ∧ fileInitWarningMsg ∈ (setup_logging freshState envAllFail "app" none true).warnings :=
  ⟨(setup_logging_never_fails freshState envAllFail "app" none true rfl).1,
    ((setup_logging_never_fails freshState envAllFail "app" none true rfl).2.2.1
      rfl).2⟩

/-- Claim C8 (against the code as written): `setup_logging` exposes no
parameters for the rotating file sink, so on a configuring call every file
sink it installs uses the `LOGGING_FILE_PATH` environment value,
`maxBytes = 1024 * 1024 * 100` and `backupCount = 5`; no caller-supplied
values can reach it.  The repository's own tests call `setup_logging` with
`log_file_path`, `log_file_max_bytes` and `log_file_backup_count` keyword
arguments, which the source's signature rejects. -/
theorem file_sink_params_hardcoded (gs : LoggingState) (env : SetupEnv) (name : String)
    (cn : Option String) (b : Bool) (p : String) (mb bc : Nat)
    (hg : gs.configured = false)
    (h : Handler.rotatingFile p mb bc ∈ (setup_logging gs env name cn b).state.rootHandlers) :
    p = env.loggingFilePath ∧ mb = 1024 * 1024 * 100 ∧ bc = 5 := by
  rcases env with ⟨ga, gc, fo, path⟩
  cases b <;> cases ga <;> cases gc <;> cases fo <;> simp_all [setup_logging]

/-- An environment in which only the file handler constructs. -/
def envFileOnly : SetupEnv :=
  ⟨false, false, true, "logs.txt"⟩

theorem file_sink_params_hardcoded_witness :
    "logs.txt" = envFileOnly.loggingFilePath
  ∧ (1024 * 1024 * 100 : Nat) = 1024 * 1024 * 100 ∧ (5 : Nat) = 5 :=
  file_sink_params_hardcoded freshState envFileOnly "app" none false "logs.txt"
    (1024 * 1024 * 100) 5 rfl (by decide)

/-- Claim C7 as stated is false: constructing `PrefixedLogger` directly on a
fresh process leaves the process-wide configuration untouched — the flag
stays down and no sink is installed, because `__init__` only calls
`logging.getLogger` and never `setup_logging`. -/
theorem direct_construct_not_configuring_cex :
    (PrefixedLogger.construct freshState "app" (some "p-tag")).1.configured = false
  ∧ (PrefixedLogger.construct freshState "app" (some "p-tag")).1.rootHandlers = [] := by
  exact ⟨rfl, rfl⟩

/-- Claim C7 amended: direct construction of the façade performs no
initialization at all (the process-wide state passes through unchanged);
only the convenience factory `get_prefixed_logger` triggers the initializer,
and at its defaults it does so with cloud logging disabled, so a fresh
process ends up configured with no cloud sink. -/
theorem direct_construct_frame_and_factory (gs : LoggingState) (env : SetupEnv)
    (name : String) (p : Option String) :
    ((PrefixedLogger.construct gs name p).1 = gs)
  ∧ (gs.configured = false →
      ((get_prefixed_logger_defaults gs env name p).1.configured = true
        ∧ ∀ n, Handler.cloud n ∉ (get_prefixed_logger_defaults gs env name p).1.rootHandlers)) := by
  refine ⟨rfl, fun h => ?_⟩
  rcases env with ⟨ga, gc, fo, path⟩
  cases fo <;>
    simp [get_prefixed_logger_defaults, get_prefixed_logger, setup_logging, h]

theorem direct_construct_frame_and_factory_witness :
    (get_prefixed_logger_defaults freshState envAllOk "app" (some "p-tag")).1.configured
      = true :=
  ((direct_construct_frame_and_factory freshState envAllOk "app" (some "p-tag")).2
    rfl).1
